import Mathlib

/-!
Shallow embedding of the summarization backend (src/index.js, the full
YouTube-integration variant: generateSummary, getYouTubeTranscript,
getVideoDetails, the four summarize route handlers, and the in-memory
history store with its save / list / delete handlers).

Upstream effects (the generative model call, the transcript HTTP call and
the YouTube Data API call) are modelled as oracle functions returning
Except values; each handler additionally returns the list of upstream
calls it performed, in order, so that claims about which upstream calls
are attempted can be stated.  The uuid source is modelled as a stream
of strings indexed by how many ids have been drawn, and Date.now as an
explicit timestamp argument.
-/

namespace YtBackend

/-- The length instruction chosen by the switch on the summary type in
generateSummary; the default branch returns the medium instruction. -/
def lengthInstruction (type : String) : String :=
  match type with
  | "short" => "Create a very concise summary in 2-3 sentences."
  | "medium" => "Create a comprehensive summary in 4-6 sentences."
  | "long" => "Create a detailed summary covering all main points in about 8-10 sentences."
  | _ => "Create a comprehensive summary in 4-6 sentences."

/-- The fixed directive lines of the prompt template, between the length
instruction and the content header (template-literal text, with its
indentation). -/
def promptDirectives : String :=
  "\n      Focus on the key ideas, concepts, and conclusions." ++
  "\n      Maintain the original tone and perspective." ++
  "\n      Provide a coherent and readable summary." ++
  "\n      "

/-- The prompt template literal of generateSummary: leading newline and
indentation, the length instruction, the fixed directives, the content
header, the content itself and the trailing indentation. -/
def buildPrompt (content : String) (type : String) : String :=
  "\n      " ++ lengthInstruction type ++ promptDirectives ++
  "\n      Here is the content to summarize:\n      " ++ content ++ "\n    "

/-- JavaScript `a || dflt` applied to an optional request field holding a
string: undefined and the empty string are falsy, any other string is
truthy. -/
def jsOr (a : Option String) (dflt : String) : String :=
  match a with
  | none => dflt
  | some s => if s = "" then dflt else s

/-- One upstream call performed by a handler. -/
inductive CallEvent where
  | metadataLookup (videoId : String)
  | transcriptLookup (videoId : String)
  | modelCall (prompt : String)
  deriving Repr, DecidableEq

/-- The snippet part of one item of a YouTube Data API videos response. -/
structure Snippet where
  title : String
  thumbnailHighUrl : String
  channelTitle : String
  publishedAt : String
  deriving Repr, DecidableEq

/-- The videoData object built by getVideoDetails. -/
structure VideoData where
  videoId : String
  title : String
  thumbnail : String
  channelTitle : String
  publishedAt : String
  deriving Repr, DecidableEq

/-- The three upstream dependencies, as oracles: the transcript service
(returning the transcript text on success), the YouTube Data API
(returning the snippet list of response.data.items on success), and the
generative model (mapping a prompt to its textual output on success).
An .error () outcome stands for any upstream failure: network error,
quota error, malformed response. -/
structure Upstreams where
  transcriptApi : String → Except Unit String
  videosApi : String → Except Unit (List Snippet)
  model : String → Except Unit String

/-- getYouTubeTranscript: awaits the transcript service and returns its
transcript; any failure is caught and rethrown as the fixed
transcript-unavailable error. -/
def getYouTubeTranscript (api : String → Except Unit String) (videoId : String) :
    Except String String :=
  match api videoId with
  | .error _ => .error "Failed to fetch video transcript"
  | .ok t => .ok t

/-- getVideoDetails: awaits the YouTube Data API and builds the videoData
object from response.data.items[0].snippet; a failed request, and equally
an empty items list (where reading items[0].snippet throws), is caught and
rethrown as the fixed details-unavailable error. -/
def getVideoDetails (api : String → Except Unit (List Snippet)) (videoId : String) :
    Except String VideoData :=
  match api videoId with
  | .error _ => .error "Failed to fetch video details"
  | .ok [] => .error "Failed to fetch video details"
  | .ok (s :: _) => .ok ⟨videoId, s.title, s.thumbnailHighUrl, s.channelTitle, s.publishedAt⟩

/-- generateSummary: builds the prompt, invokes the model once, and returns
its text; any model failure is caught and rethrown as the fixed
generation-failed error.  The second component records the model calls
performed (always exactly the one composed prompt). -/
def generateSummary (model : String → Except Unit String) (content : String)
    (type : String) : Except String String × List CallEvent :=
  let prompt := buildPrompt content type
  match model prompt with
  | .ok text => (.ok text, [.modelCall prompt])
  | .error _ => (.error "Failed to generate summary", [.modelCall prompt])

/-- Response of the text and transcript summarize endpoints. -/
inductive SummarizeResp where
  | summary (text : String)
  | badRequest (error : String)
  | serverError (error : String)
  deriving Repr, DecidableEq

/-- Response of the two YouTube summarize endpoints. -/
inductive YoutubeResp where
  | payload (videoData : VideoData) (summary : String) (transcript : String)
  | badRequest (error : String)
  | serverError (error : String)
  deriving Repr, DecidableEq

/-- POST /api/summarize: destructures content and type from the body;
!content (absent or empty) is rejected with 400 before any upstream call;
otherwise generateSummary(content, type) runs with the default parameter
supplying "medium" when type is absent, and a thrown generation error is
mapped to the 500 response. -/
def summarizeHandler (u : Upstreams) (content type : Option String) :
    SummarizeResp × List CallEvent :=
  match content with
  | none => (.badRequest "Content is required", [])
  | some c =>
    if c = "" then (.badRequest "Content is required", [])
    else
      match generateSummary u.model c (type.getD "medium") with
      | (.ok s, calls) => (.summary s, calls)
      | (.error _, calls) => (.serverError "Failed to generate summary", calls)

/-- POST /api/summarize-transcript: same shape as /api/summarize with the
transcript field as the required one. -/
def summarizeTranscriptHandler (u : Upstreams) (transcript type : Option String) :
    SummarizeResp × List CallEvent :=
  match transcript with
  | none => (.badRequest "Transcript is required", [])
  | some c =>
    if c = "" then (.badRequest "Transcript is required", [])
    else
      match generateSummary u.model c (type.getD "medium") with
      | (.ok s, calls) => (.summary s, calls)
      | (.error _, calls) => (.serverError "Failed to generate summary", calls)

/-- POST /api/summarize-youtube: rejects a falsy videoId with 400;
otherwise awaits getVideoDetails, then getYouTubeTranscript, then
generateSummary(transcript, type || "medium"); any thrown error is caught
by the single try/catch and mapped to the one 500 response. -/
def summarizeYoutubeHandler (u : Upstreams) (videoId type : Option String) :
    YoutubeResp × List CallEvent :=
  match videoId with
  | none => (.badRequest "Video ID is required", [])
  | some vid =>
    if vid = "" then (.badRequest "Video ID is required", [])
    else
      match getVideoDetails u.videosApi vid with
      | .error _ => (.serverError "Failed to summarize YouTube video", [.metadataLookup vid])
      | .ok videoData =>
        match getYouTubeTranscript u.transcriptApi vid with
        | .error _ =>
          (.serverError "Failed to summarize YouTube video",
            [.metadataLookup vid, .transcriptLookup vid])
        | .ok transcript =>
          match generateSummary u.model transcript (jsOr type "medium") with
          | (.ok summary, calls) =>
            (.payload videoData summary transcript,
              [.metadataLookup vid, .transcriptLookup vid] ++ calls)
          | (.error _, calls) =>
            (.serverError "Failed to summarize YouTube video",
              [.metadataLookup vid, .transcriptLookup vid] ++ calls)

/-- POST /summarize (the backward-compatible endpoint): destructures only
videoId from the body — the type field, modelled here as the second
argument, is never read — and always calls generateSummary(transcript,
"medium"). -/
def legacySummarizeHandler (u : Upstreams) (videoId : Option String)
    (_type : Option String) : YoutubeResp × List CallEvent :=
  match videoId with
  | none => (.badRequest "Video ID is required", [])
  | some vid =>
    if vid = "" then (.badRequest "Video ID is required", [])
    else
      match getVideoDetails u.videosApi vid with
      | .error _ => (.serverError "Failed to summarize YouTube video", [.metadataLookup vid])
      | .ok videoData =>
        match getYouTubeTranscript u.transcriptApi vid with
        | .error _ =>
          (.serverError "Failed to summarize YouTube video",
            [.metadataLookup vid, .transcriptLookup vid])
        | .ok transcript =>
          match generateSummary u.model transcript "medium" with
          | (.ok summary, calls) =>
            (.payload videoData summary transcript,
              [.metadataLookup vid, .transcriptLookup vid] ++ calls)
          | (.error _, calls) =>
            (.serverError "Failed to summarize YouTube video",
              [.metadataLookup vid, .transcriptLookup vid] ++ calls)

/-! ### History store

summaryHistory is a module-level array of plain objects.  A request body
is an arbitrary JSON object; the save handler spreads it and then writes
the id and createdAt keys, so those two always win over caller-supplied
fields of the same name.  Objects are modelled as association lists whose
later bindings shadow earlier ones, exactly like object-literal spread. -/

/-- A JSON value stored in a history object field (enough structure for
the fields the handlers touch). -/
inductive JVal where
  | str (s : String)
  | num (n : Nat)
  deriving Repr, DecidableEq

/-- A JavaScript object as an association list; later bindings shadow
earlier ones (spread semantics). -/
abbrev JsObj := List (String × JVal)

/-- Reading a field of an object: the last binding for the key wins,
mirroring that { ...data, id: v } overrides an id field of data. -/
def objGet (o : JsObj) (k : String) : Option JVal :=
  match o with
  | [] => none
  | (k1, v1) :: rest =>
    match objGet rest k with
    | some v => some v
    | none => if k1 = k then some v1 else none

/-- The history item built by the save handler: the caller-supplied record
spread first, then the store-assigned id and createdAt. -/
def mkHistoryItem (data : JsObj) (id : String) (createdAt : Nat) : JsObj :=
  data ++ ([("id", JVal.str id), ("createdAt", JVal.num createdAt)] : JsObj)

/-- The id test of the delete handler filter: item.id !== id is false
exactly when the item has an id field holding that string (strict
inequality between a non-string field and a string is always true). -/
def idMatches (item : JsObj) (id : String) : Bool :=
  objGet item "id" = some (JVal.str id)

/-- The server state owned by the history endpoints: the summaryHistory
array, plus a counter of how many uuids have been drawn so far (uuidv4 is
modelled as reading successive elements of an ambient uuid stream). -/
structure HistoryState where
  items : List JsObj
  uuidCounter : Nat
  deriving Repr, DecidableEq

/-- The state at process start: empty history, no uuid drawn. -/
def initialHistoryState : HistoryState := ⟨[], 0⟩

/-- POST /api/history/save: builds the item from the body with a fresh
uuid and Date.now(), pushes it onto summaryHistory, and responds with the
item. -/
def saveHandler (uuids : Nat → String) (now : Nat) (st : HistoryState)
    (data : JsObj) : HistoryState × JsObj :=
  let item := mkHistoryItem data (uuids st.uuidCounter) now
  (⟨st.items ++ [item], st.uuidCounter + 1⟩, item)

/-- DELETE /api/history/:id: rebinds summaryHistory to the array filtered
on item.id !== id and responds success: true unconditionally. -/
def deleteHandler (st : HistoryState) (id : String) : HistoryState × Bool :=
  (⟨st.items.filter (fun item => !idMatches item id), st.uuidCounter⟩, true)

/-- One history request, as dispatched by the routing layer. -/
inductive HRequest where
  | save (data : JsObj)
  | delete (id : String)
  | list
  deriving Repr, DecidableEq

/-- One history response: the saved item, the delete success flag, or the
serialized history listing. -/
inductive HResponse where
  | saved (item : JsObj)
  | deleted (success : Bool)
  | listing (history : List JsObj)
  deriving Repr, DecidableEq

/-- One atomic handler execution.  The history handler bodies are fully
synchronous, so on the Node event loop each runs to completion without
interleaving; concurrency is modelled as an arbitrary arrival order of
these atomic steps.  GET /api/history serializes the history array at
call time into the response. -/
def hstep (uuids : Nat → String) (now : Nat) (st : HistoryState) :
    HRequest → HistoryState × HResponse
  | .save data =>
    match saveHandler uuids now st data with
    | (st1, item) => (st1, .saved item)
  | .delete id =>
    match deleteHandler st id with
    | (st1, ok) => (st1, .deleted ok)
  | .list => (st, .listing st.items)

/-- Running a whole arrival order of requests from a state; t indexes the
clock stream supplying each step's Date.now() value.  Returns the final
state and the responses, in arrival order. -/
def hrun (uuids : Nat → String) (clock : Nat → Nat) (st : HistoryState)
    (t : Nat) : List HRequest → HistoryState × List HResponse
  | [] => (st, [])
  | r :: rs =>
    match hstep uuids (clock t) st r with
    | (st1, resp) =>
      match hrun uuids clock st1 (t + 1) rs with
      | (stf, resps) => (stf, resp :: resps)

/-- The ids assigned by the save steps of a run, read off the responses in
order. -/
def savedIds (resps : List HResponse) : List (Option JVal) :=
  resps.filterMap fun r =>
    match r with
    | .saved item => some (objGet item "id")
    | _ => none

/-- Whether a request is a save. -/
def isSave : HRequest → Bool
  | .save _ => true
  | _ => false

/-- The ids the store has assigned so far: the uuid stream elements
already drawn (the uuid counter counts the draws performed since process
start). -/
def assignedIds (uuids : Nat → String) (st : HistoryState) : List String :=
  (List.range st.uuidCounter).map uuids

/-- A concrete collision-free uuid stream for witnesses: the nth draw is
the string of n copies of u. -/
def uuidStream (n : Nat) : String :=
  String.mk (List.replicate n 'u')

/-- An upstream environment whose three dependencies all fail. -/
def failUps : Upstreams :=
  ⟨fun _ => .error (), fun _ => .error (), fun _ => .error ()⟩

/-- An upstream environment whose three dependencies all succeed with
fixed values. -/
def okUps : Upstreams :=
  ⟨fun _ => .ok "hello world", fun _ => .ok [⟨"T", "U", "C", "2023"⟩],
   fun _ => .ok "SUMMARY"⟩

/-! ### Theorems -/

/-- The prompts built for two modes with the same length instruction are
equal. -/
theorem buildPrompt_congr (t m1 m2 : String)
    (h : lengthInstruction m1 = lengthInstruction m2) :
    buildPrompt t m1 = buildPrompt t m2 := by
  unfold buildPrompt
  rw [h]

/-- Any mode other than short, medium and long selects the medium length
instruction. -/
theorem lengthInstruction_default (mode : String) (h1 : mode ≠ "short")
    (h2 : mode ≠ "medium") (h3 : mode ≠ "long") :
    lengthInstruction mode = lengthInstruction "medium" := by
  unfold lengthInstruction
  split <;> simp_all

/-- C1: generateSummary builds a single deterministic prompt: the length
instruction selected by the mode (short, medium and long each mapped to
their fixed instruction), followed by the fixed directives about key
ideas, original tone and coherence, followed by the content verbatim; any
mode other than those three produces the very prompt produced for
medium. -/
theorem generateSummary_prompt_structure (content mode : String) :
    buildPrompt content mode =
      "\n      " ++ lengthInstruction mode ++ promptDirectives ++
        "\n      Here is the content to summarize:\n      " ++ content ++ "\n    " ∧
    lengthInstruction "short" = "Create a very concise summary in 2-3 sentences." ∧
    lengthInstruction "medium" = "Create a comprehensive summary in 4-6 sentences." ∧
    lengthInstruction "long" =
      "Create a detailed summary covering all main points in about 8-10 sentences." ∧
    (mode ≠ "short" → mode ≠ "medium" → mode ≠ "long" →
      buildPrompt content mode = buildPrompt content "medium") := by
  refine ⟨rfl, rfl, rfl, rfl, fun h1 h2 h3 => ?_⟩
  exact buildPrompt_congr content mode "medium" (lengthInstruction_default mode h1 h2 h3)

/-- C1 witness: an unrecognized mode yields the same prompt as medium on a
concrete content. -/
theorem generateSummary_prompt_structure_witness :
    buildPrompt "Example body" "weird" = buildPrompt "Example body" "medium" :=
  (generateSummary_prompt_structure "Example body" "weird").2.2.2.2
    (by decide) (by decide) (by decide)

/-- The model calls generateSummary performs: always exactly one, with the
composed prompt. -/
theorem generateSummary_calls (model : String → Except Unit String)
    (content type : String) :
    (generateSummary model content type).2 =
      [CallEvent.modelCall (buildPrompt content type)] := by
  cases h : model (buildPrompt content type) <;> simp [generateSummary, h]

/-- Every model call made by the youtube handler uses the prompt built
from the fetched transcript with the mode type || medium. -/
theorem summarizeYoutubeHandler_modelCalls (u : Upstreams) (vid : String)
    (type : Option String) (p : String)
    (hp : CallEvent.modelCall p ∈ (summarizeYoutubeHandler u (some vid) type).2) :
    ∃ t, getYouTubeTranscript u.transcriptApi vid = .ok t ∧
      p = buildPrompt t (jsOr type "medium") := by
  by_cases hv : vid = ""
  · simp [summarizeYoutubeHandler, hv] at hp
  · cases hd : getVideoDetails u.videosApi vid with
    | error e => simp [summarizeYoutubeHandler, hv, hd] at hp
    | ok videoData =>
      cases ht : getYouTubeTranscript u.transcriptApi vid with
      | error e => simp [summarizeYoutubeHandler, hv, hd, ht] at hp
      | ok transcript =>
        cases hm : u.model (buildPrompt transcript (jsOr type "medium")) with
        | ok s =>
          simp [summarizeYoutubeHandler, hv, hd, ht, generateSummary, hm] at hp
          exact ⟨transcript, rfl, hp⟩
        | error e =>
          simp [summarizeYoutubeHandler, hv, hd, ht, generateSummary, hm] at hp
          exact ⟨transcript, rfl, hp⟩

/-- Every model call made by the legacy handler uses the prompt built from
the fetched transcript with the hard-coded medium mode. -/
theorem legacySummarizeHandler_modelCalls (u : Upstreams) (vid : String)
    (mode : Option String) (p : String)
    (hp : CallEvent.modelCall p ∈ (legacySummarizeHandler u (some vid) mode).2) :
    ∃ t, getYouTubeTranscript u.transcriptApi vid = .ok t ∧
      p = buildPrompt t "medium" := by
  by_cases hv : vid = ""
  · simp [legacySummarizeHandler, hv] at hp
  · cases hd : getVideoDetails u.videosApi vid with
    | error e => simp [legacySummarizeHandler, hv, hd] at hp
    | ok videoData =>
      cases ht : getYouTubeTranscript u.transcriptApi vid with
      | error e => simp [legacySummarizeHandler, hv, hd, ht] at hp
      | ok transcript =>
        cases hm : u.model (buildPrompt transcript "medium") with
        | ok s =>
          simp [legacySummarizeHandler, hv, hd, ht, generateSummary, hm] at hp
          exact ⟨transcript, rfl, hp⟩
        | error e =>
          simp [legacySummarizeHandler, hv, hd, ht, generateSummary, hm] at hp
          exact ⟨transcript, rfl, hp⟩

/-- C10: /summarize ignores any mode in the request body (it never reads
the type field, and every model call it makes uses the medium prompt),
while /api/summarize-youtube uses the supplied mode for its model calls
and falls back to the medium prompt when the mode is absent. -/
theorem legacy_medium_vs_youtube_mode (u : Upstreams) (vid m : String)
    (mode1 mode2 : Option String) :
    legacySummarizeHandler u (some vid) mode1 =
      legacySummarizeHandler u (some vid) mode2 ∧
    (∀ p, CallEvent.modelCall p ∈ (legacySummarizeHandler u (some vid) mode1).2 →
      ∃ t, p = buildPrompt t "medium") ∧
    (∀ p, CallEvent.modelCall p ∈ (summarizeYoutubeHandler u (some vid) (some m)).2 →
      ∃ t, p = buildPrompt t m) ∧
    (∀ p, CallEvent.modelCall p ∈ (summarizeYoutubeHandler u (some vid) none).2 →
      ∃ t, p = buildPrompt t "medium") := by
  refine ⟨rfl, ?_, ?_, ?_⟩
  · intro p hp
    obtain ⟨t, _, hpe⟩ := legacySummarizeHandler_modelCalls u vid mode1 p hp
    exact ⟨t, hpe⟩
  · intro p hp
    obtain ⟨t, _, hpe⟩ := summarizeYoutubeHandler_modelCalls u vid (some m) p hp
    refine ⟨t, hpe.trans ?_⟩
    by_cases hm : m = ""
    · subst hm
      exact buildPrompt_congr t (jsOr (some "") "medium") "" (by decide)
    · simp [jsOr, hm]
  · intro p hp
    obtain ⟨t, _, hpe⟩ := summarizeYoutubeHandler_modelCalls u vid none p hp
    exact ⟨t, hpe⟩

/-- C10 witness: with all upstreams succeeding, the youtube handler with
mode short performs the short-prompt model call on the fetched transcript,
and that call indeed matches a short prompt. -/
theorem legacy_medium_vs_youtube_mode_witness :
    ∃ t, buildPrompt "hello world" "short" = buildPrompt t "short" :=
  (legacy_medium_vs_youtube_mode okUps "abc123" "short" none none).2.2.1
    (buildPrompt "hello world" "short")
    (by simp [summarizeYoutubeHandler, okUps, getVideoDetails, getYouTubeTranscript,
          generateSummary, jsOr])

/-- C6: on a missing or empty required field (content, transcript or
videoId respectively) each summarize endpoint responds with its 400
validation error at once and performs no upstream call at all. -/
theorem validation_rejects_before_upstream (u : Upstreams) (f type : Option String)
    (h : f = none ∨ f = some "") :
    summarizeHandler u f type = (.badRequest "Content is required", []) ∧
    summarizeTranscriptHandler u f type = (.badRequest "Transcript is required", []) ∧
    summarizeYoutubeHandler u f type = (.badRequest "Video ID is required", []) ∧
    legacySummarizeHandler u f type = (.badRequest "Video ID is required", []) := by
  rcases h with h | h <;> subst h <;>
    exact ⟨rfl, rfl, rfl, rfl⟩

/-- C6 witness: the four endpoints at an absent required field. -/
theorem validation_rejects_before_upstream_witness :
    summarizeHandler failUps none none = (.badRequest "Content is required", []) ∧
    summarizeTranscriptHandler failUps none none =
      (.badRequest "Transcript is required", []) ∧
    summarizeYoutubeHandler failUps none none =
      (.badRequest "Video ID is required", []) ∧
    legacySummarizeHandler failUps none none =
      (.badRequest "Video ID is required", []) :=
  validation_rejects_before_upstream failUps none none (Or.inl rfl)

/-- C2: for a video request, success requires and records both lookups:
a successful response implies the metadata lookup and the transcript
lookup were both performed and both succeeded; and when either of the two
lookups fails, the whole request fails with the 500 response, no payload
carrying videoData and transcript is produced, and the summary generator
is never invoked. -/
theorem video_resolution_all_or_nothing (u : Upstreams) (vid : String)
    (type : Option String) (hvid : vid ≠ "") :
    (∀ vd s t calls,
      summarizeYoutubeHandler u (some vid) type = (.payload vd s t, calls) →
      CallEvent.metadataLookup vid ∈ calls ∧
      CallEvent.transcriptLookup vid ∈ calls ∧
      getVideoDetails u.videosApi vid = .ok vd ∧
      getYouTubeTranscript u.transcriptApi vid = .ok t) ∧
    (((∃ e, getVideoDetails u.videosApi vid = .error e) ∨
      (∃ e, getYouTubeTranscript u.transcriptApi vid = .error e)) →
      (summarizeYoutubeHandler u (some vid) type).1 =
        .serverError "Failed to summarize YouTube video" ∧
      ∀ p, CallEvent.modelCall p ∉ (summarizeYoutubeHandler u (some vid) type).2) := by
  constructor
  · intro vd s t calls hok
    cases hd : getVideoDetails u.videosApi vid with
    | error e => simp [summarizeYoutubeHandler, hvid, hd] at hok
    | ok videoData =>
      cases ht : getYouTubeTranscript u.transcriptApi vid with
      | error e => simp [summarizeYoutubeHandler, hvid, hd, ht] at hok
      | ok transcript =>
        cases hm : u.model (buildPrompt transcript (jsOr type "medium")) with
        | ok sum =>
          simp [summarizeYoutubeHandler, hvid, hd, ht, generateSummary, hm] at hok
          obtain ⟨⟨h1, _, h3⟩, h4⟩ := hok
          subst h1
          subst h3
          subst h4
          simp
        | error e =>
          simp [summarizeYoutubeHandler, hvid, hd, ht, generateSummary, hm] at hok
  · intro hfail
    cases hd : getVideoDetails u.videosApi vid with
    | error e =>
      refine ⟨by simp [summarizeYoutubeHandler, hvid, hd], fun p => ?_⟩
      simp [summarizeYoutubeHandler, hvid, hd]
    | ok videoData =>
      cases ht : getYouTubeTranscript u.transcriptApi vid with
      | error e =>
        refine ⟨by simp [summarizeYoutubeHandler, hvid, hd, ht], fun p => ?_⟩
        simp [summarizeYoutubeHandler, hvid, hd, ht]
      | ok transcript =>
        rcases hfail with ⟨e, he⟩ | ⟨e, he⟩
        · rw [hd] at he
          exact absurd he (by simp)
        · rw [ht] at he
          exact absurd he (by simp)

/-- C2 witness: with a failing transcript upstream but working metadata
upstream, the request fails as a whole and the model is never called. -/
theorem video_resolution_all_or_nothing_witness :
    (summarizeYoutubeHandler
        ⟨fun _ => .error (), okUps.videosApi, okUps.model⟩ (some "abc123") none).1 =
      .serverError "Failed to summarize YouTube video" ∧
    CallEvent.modelCall (buildPrompt "hello world" "medium") ∉
      (summarizeYoutubeHandler
        ⟨fun _ => .error (), okUps.videosApi, okUps.model⟩ (some "abc123") none).2 := by
  have h := (video_resolution_all_or_nothing
      ⟨fun _ => .error (), okUps.videosApi, okUps.model⟩ "abc123" none (by decide)).2
      (Or.inr ⟨"Failed to fetch video transcript", rfl⟩)
  exact ⟨h.1, h.2 (buildPrompt "hello world" "medium")⟩

/-- C7: during video resolution a metadata-lookup failure and a
transcript-lookup failure surface as two fixed, distinct error values:
every error thrown by getVideoDetails is the details error, every error
thrown by getYouTubeTranscript is the transcript error, each upstream
failure produces its own kind, and the two kinds differ. -/
theorem distinct_upstream_error_kinds (u : Upstreams) (vid : String) :
    (∀ e, getVideoDetails u.videosApi vid = .error e →
      e = "Failed to fetch video details") ∧
    (∀ e, getYouTubeTranscript u.transcriptApi vid = .error e →
      e = "Failed to fetch video transcript") ∧
    (u.videosApi vid = .error () →
      getVideoDetails u.videosApi vid = .error "Failed to fetch video details") ∧
    (u.transcriptApi vid = .error () →
      getYouTubeTranscript u.transcriptApi vid =
        .error "Failed to fetch video transcript") ∧
    ("Failed to fetch video details" : String) ≠ "Failed to fetch video transcript" := by
  refine ⟨?_, ?_, ?_, ?_, by decide⟩
  · intro e he
    unfold getVideoDetails at he
    split at he <;> simp_all
  · intro e he
    unfold getYouTubeTranscript at he
    split at he <;> simp_all
  · intro h
    simp [getVideoDetails, h]
  · intro h
    simp [getYouTubeTranscript, h]

/-- C7 witness: with both upstreams failing on a concrete video id, the
two resolution failures carry the two distinct error values. -/
theorem distinct_upstream_error_kinds_witness :
    getVideoDetails failUps.videosApi "abc123" =
      .error "Failed to fetch video details" ∧
    getYouTubeTranscript failUps.transcriptApi "abc123" =
      .error "Failed to fetch video transcript" :=
  ⟨(distinct_upstream_error_kinds failUps "abc123").2.2.1 rfl,
   (distinct_upstream_error_kinds failUps "abc123").2.2.2.1 rfl⟩

/-- C8: whenever the model fails on the composed prompt (for any failure
cause, all abstracted as the error outcome), generateSummary propagates
exactly the single generation-failed error with no partial output, after
exactly one model invocation (no retry). -/
theorem generateSummary_failure_propagation (model : String → Except Unit String)
    (content type : String)
    (h : model (buildPrompt content type) = .error ()) :
    generateSummary model content type =
      (.error "Failed to generate summary",
       [CallEvent.modelCall (buildPrompt content type)]) := by
  simp [generateSummary, h]

/-- C8 witness: a concretely failing model propagates the generation
error after its single call. -/
theorem generateSummary_failure_propagation_witness :
    generateSummary (fun _ => .error ()) "hello world" "short" =
      (.error "Failed to generate summary",
       [CallEvent.modelCall (buildPrompt "hello world" "short")]) :=
  generateSummary_failure_propagation (fun _ => .error ()) "hello world" "short" rfl

/-- Reading a key of an appended object finds the later binding when the
right part has one. -/
theorem objGet_append_of_some (a b : JsObj) (k : String) (v : JVal)
    (h : objGet b k = some v) : objGet (a ++ b) k = some v := by
  induction a with
  | nil => simpa using h
  | cons hd tl ih =>
    obtain ⟨k1, v1⟩ := hd
    show (match objGet (tl ++ b) k with
      | some v => some v
      | none => if k1 = k then some v1 else none) = some v
    rw [ih]

/-- The id field of a freshly built history item is the store-assigned
one, whatever the caller-supplied record holds. -/
theorem objGet_mkHistoryItem_id (data : JsObj) (id : String) (ts : Nat) :
    objGet (mkHistoryItem data id ts) "id" = some (JVal.str id) :=
  objGet_append_of_some data _ "id" _ (by simp [objGet])

/-- The createdAt field of a freshly built history item is the insertion
timestamp. -/
theorem objGet_mkHistoryItem_createdAt (data : JsObj) (id : String) (ts : Nat) :
    objGet (mkHistoryItem data id ts) "createdAt" = some (JVal.num ts) :=
  objGet_append_of_some data _ "createdAt" _ (by simp [objGet])

/-- The witness uuid stream never repeats a value. -/
theorem uuidStream_injective : Function.Injective uuidStream := by
  intro a b h
  have h2 := congrArg String.length h
  simpa [uuidStream] using h2

/-- C3: save stores the caller record extended with a store-assigned id
(the next draw of the uuid stream, distinct from every id the store has
assigned before, provided the stream is collision-free) and the insertion
timestamp as createdAt, appends the stored item at the end of the log,
advances the uuid counter, and returns exactly the stored item; its id
field is the store-assigned one even when the caller record carries an id
field of its own. -/
theorem save_assigns_fresh_id (uuids : Nat → String) (now : Nat)
    (st : HistoryState) (data : JsObj) (hinj : Function.Injective uuids) :
    objGet (saveHandler uuids now st data).2 "id" =
      some (JVal.str (uuids st.uuidCounter)) ∧
    uuids st.uuidCounter ∉ assignedIds uuids st ∧
    objGet (saveHandler uuids now st data).2 "createdAt" = some (JVal.num now) ∧
    (saveHandler uuids now st data).1.items =
      st.items ++ [(saveHandler uuids now st data).2] ∧
    (saveHandler uuids now st data).1.uuidCounter = st.uuidCounter + 1 := by
  refine ⟨objGet_mkHistoryItem_id data _ now, ?_,
    objGet_mkHistoryItem_createdAt data _ now, rfl, rfl⟩
  intro hmem
  simp only [assignedIds, List.mem_map, List.mem_range] at hmem
  obtain ⟨k, hk, heq⟩ := hmem
  exact absurd (hinj heq) (Nat.ne_of_lt hk)

/-- C3 witness: a concrete save over a one-item store, with a caller
record that itself carries an id field; the stored item gets the stream's
next id, not the caller one. -/
theorem save_assigns_fresh_id_witness :
    objGet (saveHandler uuidStream 42 ⟨[[("id", JVal.str "u")]], 1⟩
        [("id", JVal.str "evil"), ("summary", JVal.str "s")]).2 "id" =
      some (JVal.str (uuidStream 1)) ∧
    uuidStream 1 ∉ assignedIds uuidStream ⟨[[("id", JVal.str "u")]], 1⟩ ∧
    objGet (saveHandler uuidStream 42 ⟨[[("id", JVal.str "u")]], 1⟩
        [("id", JVal.str "evil"), ("summary", JVal.str "s")]).2 "createdAt" =
      some (JVal.num 42) ∧
    (saveHandler uuidStream 42 ⟨[[("id", JVal.str "u")]], 1⟩
        [("id", JVal.str "evil"), ("summary", JVal.str "s")]).1.items =
      [[("id", JVal.str "u")]] ++
        [(saveHandler uuidStream 42 ⟨[[("id", JVal.str "u")]], 1⟩
          [("id", JVal.str "evil"), ("summary", JVal.str "s")]).2] ∧
    (saveHandler uuidStream 42 ⟨[[("id", JVal.str "u")]], 1⟩
        [("id", JVal.str "evil"), ("summary", JVal.str "s")]).1.uuidCounter = 2 :=
  save_assigns_fresh_id uuidStream 42 ⟨[[("id", JVal.str "u")]], 1⟩
    [("id", JVal.str "evil"), ("summary", JVal.str "s")] uuidStream_injective

/-- C4 counterexample: the delete handler answers success: true
unconditionally, so deleting an id that is not present returns the very
same response value as a delete that removed an item — no result value
reports that nothing was removed.  Concretely, on a store holding one
item with id a, deleting the absent id b removes nothing yet responds
true, identically to deleting the present id a. -/
theorem delete_always_reports_success :
    (deleteHandler ⟨[[("id", JVal.str "a")]], 1⟩ "b").2 = true ∧
    (deleteHandler ⟨[[("id", JVal.str "a")]], 1⟩ "b").1.items =
      [[("id", JVal.str "a")]] ∧
    (deleteHandler ⟨[[("id", JVal.str "a")]], 1⟩ "a").1.items = [] ∧
    (deleteHandler ⟨[[("id", JVal.str "a")]], 1⟩ "b").2 =
      (deleteHandler ⟨[[("id", JVal.str "a")]], 1⟩ "a").2 := by
  decide

/-- C4 (amended): deleting an id that is not present leaves the store
completely unchanged and yields the ordinary success response (true, the
same value every delete returns — not a distinguished nothing-removed
report), and repeated deletes of the same id are all no-ops after the
first; none of them is an error. -/
theorem deleteById_absent_noop (st : HistoryState) (id : String)
    (h : ∀ item ∈ st.items, ¬ idMatches item id) :
    deleteHandler st id = (st, true) ∧
    (∀ st2 : HistoryState, ∀ id2 : String,
      deleteHandler (deleteHandler st2 id2).1 id2 =
        ((deleteHandler st2 id2).1, true)) := by
  constructor
  · obtain ⟨items, c⟩ := st
    simp only [deleteHandler, Prod.mk.injEq, and_true, HistoryState.mk.injEq]
    apply List.filter_eq_self.mpr
    intro a ha
    simpa using h a ha
  · intro st2 id2
    simp only [deleteHandler, Prod.mk.injEq, and_true, HistoryState.mk.injEq]
    apply List.filter_eq_self.mpr
    intro a ha
    exact (List.mem_filter.mp ha).2

/-- C4 witness: deleting an absent id from a concrete one-item store is a
no-op with the success response, and repeating a delete is a no-op. -/
theorem deleteById_absent_noop_witness :
    deleteHandler ⟨[[("id", JVal.str "a")]], 1⟩ "b" =
      (⟨[[("id", JVal.str "a")]], 1⟩, true) ∧
    (∀ st2 : HistoryState, ∀ id2 : String,
      deleteHandler (deleteHandler st2 id2).1 id2 =
        ((deleteHandler st2 id2).1, true)) :=
  deleteById_absent_noop ⟨[[("id", JVal.str "a")]], 1⟩ "b" (by decide)

/-- Unfolding one step of a run. -/
theorem hrun_cons (uuids : Nat → String) (clock : Nat → Nat) (st : HistoryState)
    (t : Nat) (r : HRequest) (rs : List HRequest) :
    hrun uuids clock st t (r :: rs) =
      ((hrun uuids clock (hstep uuids (clock t) st r).1 (t + 1) rs).1,
       (hstep uuids (clock t) st r).2 ::
         (hrun uuids clock (hstep uuids (clock t) st r).1 (t + 1) rs).2) := rfl

/-- A run over concatenated arrival orders produces the responses of the
first part, unchanged, followed by those of the second run from the
reached state. -/
theorem hrun_append (uuids : Nat → String) (clock : Nat → Nat) (st : HistoryState)
    (t : Nat) (l1 l2 : List HRequest) :
    (hrun uuids clock st t (l1 ++ l2)).2 =
      (hrun uuids clock st t l1).2 ++
        (hrun uuids clock (hrun uuids clock st t l1).1 (t + l1.length) l2).2 := by
  induction l1 generalizing st t with
  | nil => simp [hrun]
  | cons r rs ih =>
    simp only [List.cons_append, hrun_cons, List.length_cons]
    rw [ih, show t + (rs.length + 1) = t + 1 + rs.length by omega]

/-- Each request gets exactly one response. -/
theorem hrun_resps_length (uuids : Nat → String) (clock : Nat → Nat)
    (st : HistoryState) (t : Nat) (reqs : List HRequest) :
    (hrun uuids clock st t reqs).2.length = reqs.length := by
  induction reqs generalizing st t with
  | nil => rfl
  | cons r rs ih => simp [hrun_cons, ih]

/-- C5: the history listing is a point-in-time snapshot.  The list
endpoint serializes the items present at call time and leaves the state
untouched, and whatever save or delete requests are processed afterwards,
the responses already produced — listings included — are exactly those of
the run without the subsequent requests. -/
theorem list_snapshot_stable (uuids : Nat → String) (clock : Nat → Nat)
    (st : HistoryState) (t : Nat) (reqs more : List HRequest) :
    hstep uuids (clock t) st HRequest.list = (st, .listing st.items) ∧
    ((hrun uuids clock st t (reqs ++ more)).2).take reqs.length =
      (hrun uuids clock st t reqs).2 := by
  refine ⟨rfl, ?_⟩
  rw [hrun_append, ← hrun_resps_length uuids clock st t reqs]
  exact List.take_left _ _

/-- The ids recorded in the save responses of a run are the consecutive
draws of the uuid stream from the start state's counter on, and the
counter advances by the number of saves. -/
theorem hrun_savedIds (uuids : Nat → String) (clock : Nat → Nat)
    (st : HistoryState) (t : Nat) (reqs : List HRequest) :
    savedIds (hrun uuids clock st t reqs).2 =
      (List.range' st.uuidCounter (reqs.countP isSave)).map
        (fun k => some (JVal.str (uuids k))) ∧
    (hrun uuids clock st t reqs).1.uuidCounter =
      st.uuidCounter + reqs.countP isSave := by
  induction reqs generalizing st t with
  | nil => simp [hrun, savedIds]
  | cons r rs ih =>
    cases r with
    | save data =>
      have ihs := ih (⟨st.items ++ [mkHistoryItem data (uuids st.uuidCounter) (clock t)],
        st.uuidCounter + 1⟩) (t + 1)
      simp only [hrun_cons, hstep, saveHandler, List.countP_cons, isSave,
        savedIds, List.filterMap_cons, if_true] at ihs ⊢
      rw [List.range'_succ]
      simp only [List.map_cons]
      refine ⟨?_, by omega⟩
      rw [objGet_mkHistoryItem_id]
      simp [ihs.1]
    | delete id =>
      have ihs := ih (⟨st.items.filter (fun item => !idMatches item id),
        st.uuidCounter⟩) (t + 1)
      simp only [hrun_cons, hstep, deleteHandler, List.countP_cons, isSave,
        savedIds, List.filterMap_cons] at ihs ⊢
      simpa using ihs
    | list =>
      have ihs := ih st (t + 1)
      simp only [hrun_cons, hstep, List.countP_cons, isSave,
        savedIds, List.filterMap_cons] at ihs ⊢
      simpa using ihs

/-- When every request of a run is a save, each one appends its item: no
entry is lost. -/
theorem hrun_allSaves_length (uuids : Nat → String) (clock : Nat → Nat)
    (st : HistoryState) (t : Nat) (reqs : List HRequest)
    (h : ∀ r ∈ reqs, isSave r) :
    (hrun uuids clock st t reqs).1.items.length = st.items.length + reqs.length := by
  induction reqs generalizing st t with
  | nil => rfl
  | cons r rs ih =>
    cases r with
    | save data =>
      rw [hrun_cons]
      have := ih (⟨st.items ++ [mkHistoryItem data (uuids st.uuidCounter) (clock t)],
        st.uuidCounter + 1⟩) (t + 1) (fun r hr => h r (List.mem_cons_of_mem _ hr))
      simp only [hstep, saveHandler] at this ⊢
      rw [this]
      simp
      omega
    | delete id => exact absurd (h _ (List.mem_cons_self _ _)) (by simp [isSave])
    | list => exact absurd (h _ (List.mem_cons_self _ _)) (by simp [isSave])

/-- C9: under the event-loop model — each history handler body is
synchronous and runs atomically, so concurrent requests are an arbitrary
arrival order of atomic steps — saves and deletes are mutually exclusive
by construction, and: the save responses of any arrival order carry
pairwise distinct ids, one per save (with a collision-free uuid stream);
an order consisting of N saves leaves exactly N items, none lost; a save
step commits its item onto the log atomically; and a delete step acts
only on the already committed log, filtering the items present when it
runs, so it can never observe or remove a not-yet-committed item. -/
theorem concurrent_saves_distinct_ids (uuids : Nat → String) (clock : Nat → Nat)
    (reqs : List HRequest) (hinj : Function.Injective uuids) :
    (savedIds (hrun uuids clock initialHistoryState 0 reqs).2).Nodup ∧
    (savedIds (hrun uuids clock initialHistoryState 0 reqs).2).length =
      reqs.countP isSave ∧
    ((∀ r ∈ reqs, isSave r) →
      (hrun uuids clock initialHistoryState 0 reqs).1.items.length = reqs.length) ∧
    (∀ now : Nat, ∀ st : HistoryState, ∀ data : JsObj,
      (hstep uuids now st (.save data)).1.items =
        st.items ++ [mkHistoryItem data (uuids st.uuidCounter) now]) ∧
    (∀ now : Nat, ∀ st : HistoryState, ∀ id : String,
      (hstep uuids now st (.delete id)).1.items =
        st.items.filter (fun item => !idMatches item id)) := by
  obtain ⟨hids, hcounter⟩ :=
    hrun_savedIds uuids clock initialHistoryState 0 reqs
  refine ⟨?_, ?_, ?_, fun _ _ _ => rfl, fun _ _ _ => rfl⟩
  · rw [hids]
    refine List.Nodup.map ?_ (List.nodup_range' _ _)
    intro a b hab
    simp only [Option.some.injEq, JVal.str.injEq] at hab
    exact hinj hab
  · rw [hids]
    simp
  · intro hall
    simpa [initialHistoryState] using
      hrun_allSaves_length uuids clock initialHistoryState 0 reqs hall

/-- C9 witness: a concrete arrival order of saves interleaved with a
delete, under the collision-free witness uuid stream. -/
theorem concurrent_saves_distinct_ids_witness :
    (savedIds (hrun uuidStream (fun _ => 7) initialHistoryState 0
        [HRequest.save [], HRequest.delete "u", HRequest.save []]).2).Nodup ∧
    (savedIds (hrun uuidStream (fun _ => 7) initialHistoryState 0
        [HRequest.save [], HRequest.delete "u", HRequest.save []]).2).length =
      ([HRequest.save [], HRequest.delete "u", HRequest.save []].countP isSave) ∧
    ((∀ r ∈ [HRequest.save [], HRequest.delete "u", HRequest.save []], isSave r) →
      (hrun uuidStream (fun _ => 7) initialHistoryState 0
        [HRequest.save [], HRequest.delete "u", HRequest.save []]).1.items.length = 3) ∧
    (∀ now : Nat, ∀ st : HistoryState, ∀ data : JsObj,
      (hstep uuidStream now st (.save data)).1.items =
        st.items ++ [mkHistoryItem data (uuidStream st.uuidCounter) now]) ∧
    (∀ now : Nat, ∀ st : HistoryState, ∀ id : String,
      (hstep uuidStream now st (.delete id)).1.items =
        st.items.filter (fun item => !idMatches item id)) :=
  concurrent_saves_distinct_ids uuidStream (fun _ => 7)
    [HRequest.save [], HRequest.delete "u", HRequest.save []] uuidStream_injective

end YtBackend
